import Mathlib

/-!
Verification of the PyQMRI IRGN reconstruction core against its
natural-language specification.

The development shallowly embeds the relevant parts of the source:

* `Reco` — the orchestration in `pyqmri/irgn/reco.py` (regularization
  schedule, inner-solver setup, line-search acceptance, solver entry
  states, gradient balancing, `execute`).
* `DiffdirLL` — the Cholesky-parametrized diffusion model in
  `pyqmri/models/DiffdirLL.py` (per-voxel, per-scan scalar form).
* `Diffdir` — the linear diffusion model in `mbpq/_models/Diffdir.py`.
* `IRLL` — the inversion-recovery Look-Locker model in `IRLL_Model.py`,
  over an extended value domain that tracks non-finite propagation.

Machine floats are idealized as real numbers; array expressions are
embedded element-wise (every numpy operation involved acts element-wise,
with scalars broadcast), and reductions over flattened arrays as sums
over lists.
-/

namespace Reco

/-- The configuration dictionary `irgn_par` consumed by the outer loop
(the fields touched by `_update_reg_par` and `execute`); machine floats
idealized as rationals. -/
structure IrgnPar where
  lambd : ℚ
  gamma : ℚ
  gamma_min : ℚ
  gamma_dec : ℚ
  omega : ℚ
  omega_min : ℚ
  omega_dec : ℚ
  delta : ℚ
  delta_max : ℚ
  delta_inc : ℚ

/-- The attributes `ModelReco.execute` stores on `self` before entering
`_execute_3D`: the (lambd-scaled) `irgn_par` plus the frozen initial
values `self.delta`, `self.delta_max`, `self.gamma`, `self.omega`. -/
structure RecoState where
  irgn_par : IrgnPar
  delta0 : ℚ
  delta_max0 : ℚ
  gamma0 : ℚ
  omega0 : ℚ

/-- The `else` branch of `ModelReco.execute` (source lines 1043-1049):
`irgn_par["lambd"] *= par["SNR_est"]`, then the current `delta`,
`delta_max`, `gamma`, `omega` are stored as `self.delta` etc. -/
def execute_store (snr : ℚ) (p : IrgnPar) : RecoState :=
  let p1 : IrgnPar := { p with lambd := p.lambd * snr }
  { irgn_par := p1
    delta0 := p1.delta
    delta_max0 := p1.delta_max
    gamma0 := p1.gamma
    omega0 := p1.omega }

/-- `ModelReco.execute` (source lines 1038-1049): raises
`NotImplementedError` when `reco_2D` is nonzero, otherwise mutates
`irgn_par["lambd"]` and stores the schedule base values, then runs
`_execute_3D` with the mutated parameters. -/
def execute (snr : ℚ) (reco_2D : Bool) (p : IrgnPar) : Except Unit RecoState :=
  if reco_2D then Except.error () else Except.ok (execute_store snr p)

/-- `ModelReco._update_reg_par` (source lines 214-226). `nrm` stands for
`np.linalg.norm(result)` and `ign` is the Gauss-Newton iteration index.
`delta_max` is written first and the freshly written value is used in the
`delta` update. -/
def update_reg_par (p : IrgnPar) (delta0 delta_max0 gamma0 omega0 : ℚ)
    (nrm : ℚ) (ign : ℕ) : IrgnPar :=
  let dmax : ℚ := delta_max0 / 1e3 * nrm
  { p with
    delta_max := dmax
    delta := min (delta0 / 1e3 * nrm * p.delta_inc ^ ign) dmax
    gamma := max (gamma0 * p.gamma_dec ^ ign) p.gamma_min
    omega := max (omega0 * p.omega_dec ^ ign) p.omega_min }

/-- The scalar state `_setup_reg_tmp_arrays` (source lines 254-291)
initializes for the inner solver: the step size `tau`, `beta_line` and
`theta_line`, by the value of the `TV` switch (1 = TV, 0 = TGV,
anything else = explicit-adjoint TGV). -/
structure InnerInit where
  tau : ℝ
  beta_line : ℝ
  theta_line : ℝ

/-- `ModelReco._setup_reg_tmp_arrays` (source lines 254-291), scalar
part. `TV = 1`: `tau = 1/sqrt(8)`, `beta_line = 400`; `TV = 0`:
`L = 0.5*(18+sqrt 33)`, `tau = 1/sqrt L`, `beta_line = 400`; otherwise
the same `L` with `beta_line = 1`. `theta_line = 1` in every branch. -/
noncomputable def setup_reg_tmp_arrays (TV : ℤ) : InnerInit :=
  if TV = 1 then
    { tau := 1 / Real.sqrt 8, beta_line := 400, theta_line := 1 }
  else if TV = 0 then
    { tau := 1 / Real.sqrt (0.5 * (18.0 + Real.sqrt 33)), beta_line := 400,
      theta_line := 1 }
  else
    { tau := 1 / Real.sqrt (0.5 * (18.0 + Real.sqrt 33)), beta_line := 1,
      theta_line := 1 }

end Reco

/-- C2: at the start of Gauss-Newton iteration `k`, `_update_reg_par` sets
`delta_max` to `delta_max0 * ||x|| / 10^3`, `delta` to
`min(delta0 * ||x|| * delta_inc^k / 10^3, delta_max)`, `gamma` to
`max(gamma0 * gamma_dec^k, gamma_min)` and `omega` to
`max(omega0 * omega_dec^k, omega_min)`, where `delta0`, `delta_max0`,
`gamma0`, `omega0` are the values stored by `execute` before the loop and
`nrm` is the Euclidean norm of the current estimate. -/
theorem C2_update_reg_par (snr : ℚ) (p : Reco.IrgnPar) (nrm : ℚ) (k : ℕ) :
    let st := Reco.execute_store snr p
    let q := Reco.update_reg_par st.irgn_par st.delta0 st.delta_max0
      st.gamma0 st.omega0 nrm k
    q.delta_max = st.delta_max0 * nrm / 1e3 ∧
    q.delta = min (st.delta0 * nrm * st.irgn_par.delta_inc ^ k / 1e3)
      q.delta_max ∧
    q.gamma = max (st.gamma0 * st.irgn_par.gamma_dec ^ k)
      st.irgn_par.gamma_min ∧
    q.omega = max (st.omega0 * st.irgn_par.omega_dec ^ k)
      st.irgn_par.omega_min := by
  refine ⟨?_, ?_, rfl, rfl⟩
  · simp only [Reco.update_reg_par]
    ring
  · simp only [Reco.update_reg_par]
    congr 1
    ring

/-- C10: `execute` with `reco_2D = 0` multiplies the stored `lambd` by
`SNR_est` in place before any reconstruction work, so the parameters
handed to the reconstruction carry `lambd * SNR_est`; a second call
scales by `SNR_est` again; with `reco_2D` nonzero it raises
`NotImplementedError` and performs no mutation. -/
theorem C10_execute_scales_lambd (snr : ℚ) (p : Reco.IrgnPar) :
    (∃ st, Reco.execute snr false p = Except.ok st ∧
      st.irgn_par.lambd = p.lambd * snr ∧
      st.delta0 = p.delta ∧ st.delta_max0 = p.delta_max ∧
      st.gamma0 = p.gamma ∧ st.omega0 = p.omega ∧
      ∃ st2, Reco.execute snr false st.irgn_par = Except.ok st2 ∧
        st2.irgn_par.lambd = p.lambd * snr * snr) ∧
    Reco.execute snr true p = Except.error () := by
  exact ⟨⟨_, rfl, rfl, rfl, rfl, rfl, rfl, _, rfl, rfl⟩, rfl⟩

/-- C6: at entry to the inner solver the initial step size is
`tau = 1/sqrt L` with `L = (18 + sqrt 33)/2` for the TGV and
explicit-adjoint variants and `L = 8` for the TV variant, `theta_line`
is `1`, and `beta_line` is `400` for TGV and `1` for the
explicit-adjoint variant. -/
theorem C6_inner_init (tv : ℤ) (h0 : tv ≠ 0) (h1 : tv ≠ 1) :
    (Reco.setup_reg_tmp_arrays 0).tau
        = 1 / Real.sqrt ((18 + Real.sqrt 33) / 2) ∧
    (Reco.setup_reg_tmp_arrays tv).tau
        = 1 / Real.sqrt ((18 + Real.sqrt 33) / 2) ∧
    (Reco.setup_reg_tmp_arrays 1).tau = 1 / Real.sqrt 8 ∧
    (Reco.setup_reg_tmp_arrays 0).theta_line = 1 ∧
    (Reco.setup_reg_tmp_arrays 1).theta_line = 1 ∧
    (Reco.setup_reg_tmp_arrays tv).theta_line = 1 ∧
    (Reco.setup_reg_tmp_arrays 0).beta_line = 400 ∧
    (Reco.setup_reg_tmp_arrays tv).beta_line = 1 := by
  have hL : (0.5 * (18.0 + Real.sqrt 33) : ℝ) = (18 + Real.sqrt 33) / 2 := by
    ring
  simp only [Reco.setup_reg_tmp_arrays, if_neg h0, if_neg h1, hL]
  norm_num

/-- C6 witness: the explicit-adjoint branch instantiated at `TV = 2`. -/
theorem C6_inner_init_witness :
    (Reco.setup_reg_tmp_arrays 0).tau
        = 1 / Real.sqrt ((18 + Real.sqrt 33) / 2) ∧
    (Reco.setup_reg_tmp_arrays 2).tau
        = 1 / Real.sqrt ((18 + Real.sqrt 33) / 2) ∧
    (Reco.setup_reg_tmp_arrays 1).tau = 1 / Real.sqrt 8 ∧
    (Reco.setup_reg_tmp_arrays 0).theta_line = 1 ∧
    (Reco.setup_reg_tmp_arrays 1).theta_line = 1 ∧
    (Reco.setup_reg_tmp_arrays 2).theta_line = 1 ∧
    (Reco.setup_reg_tmp_arrays 0).beta_line = 400 ∧
    (Reco.setup_reg_tmp_arrays 2).beta_line = 1 :=
  C6_inner_init 2 (by decide) (by decide)

namespace Reco

/-- Outcome of one pass through the line-search `while True` body: either
the `break` with the accepted `tau_new`, or another round with
`tau_new * mu_line`. The source has no further outcome (in particular no
error path). -/
inductive LS where
  | accept (tau_new : ℝ)
  | retry (tau_new : ℝ)

/-- `delta_line = np.float32(1)` (source lines 512, 720, 891). -/
noncomputable def delta_line : ℝ := 1

/-- `mu_line = np.float32(0.5)` (source lines 511, 719, 890). -/
noncomputable def mu_line : ℝ := 1 / 2

/-- One pass of the `tgv_solve_3D` line-search body (source lines
558-591). The dual updates are recomputed from scratch on every retry
with step `sigma = beta_line * tau_new`, so the two norm reductions are
functions of `tau_new`: `nK tau_new` is
`sqrt(|Kyk1_new-Kyk1|^2 + |Kyk2_new-Kyk2|^2)` and `nY tau_new` is
`sqrt(|r_new-r|^2 + |z1_new-z1|^2 + |z2_new-z2|^2)`. Accept when
`sqrt(beta_line) * tau_new * nK <= nY * delta_line`, else halve. -/
noncomputable def ls_step_tgv (beta_line tau_new : ℝ) (nK nY : ℝ → ℝ) : LS :=
  if Real.sqrt beta_line * tau_new * nK tau_new ≤ nY tau_new * delta_line
  then LS.accept tau_new
  else LS.retry (tau_new * mu_line)

/-- One pass of the `tv_solve_3D` line-search body (source lines
930-954): same acceptance rule, with `nK` measuring only the `Kyk1`
change and `nY` the `(r, z1)` change. -/
noncomputable def ls_step_tv (beta_line tau_new : ℝ) (nK nY : ℝ → ℝ) : LS :=
  if Real.sqrt beta_line * tau_new * nK tau_new ≤ nY tau_new * delta_line
  then LS.accept tau_new
  else LS.retry (tau_new * mu_line)

/-- One pass of the `tgv_solve_3D_explicit` line-search body (source
lines 769-791): here the left-hand side carries an extra factor `1e2`,
`nK` measures the `(Kyk1, Kyk2)` change and `nY` the `(z1, z2)` change
(this variant has no `r`). -/
noncomputable def ls_step_expl (beta_line tau_new : ℝ) (nK nY : ℝ → ℝ) : LS :=
  if 1e2 * Real.sqrt beta_line * tau_new * nK tau_new ≤ nY tau_new * delta_line
  then LS.accept tau_new
  else LS.retry (tau_new * mu_line)

/-- The full backtracking loop of `tgv_solve_3D` (the `while True` at
source line 558), with an explicit fuel bound standing for the number of
passes observed: the source loop has no other exit than the acceptance
`break`, so exhausting any finite fuel yields no accepted step. -/
noncomputable def ls_run_tgv : ℕ → ℝ → ℝ → (ℝ → ℝ) → (ℝ → ℝ) → Option ℝ
  | 0, _, _, _, _ => none
  | n + 1, beta_line, tau_new, nK, nY =>
    match ls_step_tgv beta_line tau_new nK nY with
    | LS.accept t => some t
    | LS.retry t => ls_run_tgv n beta_line t nK nY

/-- The full backtracking loop of `tv_solve_3D` (the `while True` at
source line 930), with fuel. -/
noncomputable def ls_run_tv : ℕ → ℝ → ℝ → (ℝ → ℝ) → (ℝ → ℝ) → Option ℝ
  | 0, _, _, _, _ => none
  | n + 1, beta_line, tau_new, nK, nY =>
    match ls_step_tv beta_line tau_new nK nY with
    | LS.accept t => some t
    | LS.retry t => ls_run_tv n beta_line t nK nY

/-- The acceptance criterion exactly as the specification words it
(section 4.4): accept when
`sqrt(beta_line) * tau_new * |K(y_new - y_old)| <= delta_line * |y_new - y_old|`
with `delta_line = 1`. Stated from the claim, to be compared with the
acceptance tests embedded from the source. -/
def lineSearchAcceptSpec (beta_line tau_new nK nY : ℝ) : Prop :=
  Real.sqrt beta_line * tau_new * nK ≤ 1 * nY

end Reco

/-- C5 counterexample: in the explicit-adjoint variant with
`beta_line = 1`, `tau_new = 1`, `|K(y_new - y_old)| = 1` and
`|y_new - y_old| = 2`, the claimed criterion accepts
(`sqrt(1)*1*1 <= 1*2`) but the code rejects and halves `tau_new`,
because its test carries an extra factor `1e2`
(`1e2 * sqrt(1) * 1 * 1 <= 2` fails). -/
theorem C5_counterexample :
    Reco.lineSearchAcceptSpec 1 1 1 2 ∧
    Reco.ls_step_expl 1 1 (fun _ => 1) (fun _ => 2)
      = Reco.LS.retry (1 * Reco.mu_line) := by
  constructor
  · simp only [Reco.lineSearchAcceptSpec, Real.sqrt_one]
    norm_num
  · simp only [Reco.ls_step_expl, Reco.delta_line, Real.sqrt_one]
    rw [if_neg]
    norm_num

/-- C5 (amended): the TGV and TV variants accept the tentative dual
update with step `sigma = beta_line * tau_new` exactly when
`sqrt(beta_line) * tau_new * |K(y_new-y_old)| <= delta_line * |y_new-y_old|`
with `delta_line = 1`; the explicit-adjoint variant instead tests the
same inequality with its left side multiplied by `1e2`; in every variant
a rejection multiplies `tau_new` by `0.5` and retries with the same
`beta_line`. -/
theorem C5_line_search_accept (beta tau : ℝ) (nK nY : ℝ → ℝ) :
    (Reco.ls_step_tgv beta tau nK nY = Reco.LS.accept tau ↔
      Reco.lineSearchAcceptSpec beta tau (nK tau) (nY tau)) ∧
    (Reco.ls_step_tv beta tau nK nY = Reco.LS.accept tau ↔
      Reco.lineSearchAcceptSpec beta tau (nK tau) (nY tau)) ∧
    (Reco.ls_step_expl beta tau nK nY = Reco.LS.accept tau ↔
      1e2 * Real.sqrt beta * tau * nK tau ≤ 1 * nY tau) ∧
    (Reco.ls_step_tgv beta tau nK nY = Reco.LS.retry (tau * (1 / 2)) ↔
      ¬ Reco.lineSearchAcceptSpec beta tau (nK tau) (nY tau)) ∧
    (Reco.ls_step_tv beta tau nK nY = Reco.LS.retry (tau * (1 / 2)) ↔
      ¬ Reco.lineSearchAcceptSpec beta tau (nK tau) (nY tau)) ∧
    (Reco.ls_step_expl beta tau nK nY = Reco.LS.retry (tau * (1 / 2)) ↔
      ¬ (1e2 * Real.sqrt beta * tau * nK tau ≤ 1 * nY tau)) := by
  simp only [Reco.ls_step_tgv, Reco.ls_step_tv, Reco.ls_step_expl,
    Reco.lineSearchAcceptSpec, Reco.delta_line, Reco.mu_line, mul_one,
    one_mul]
  refine ⟨?_, ?_, ?_, ?_, ?_, ?_⟩ <;>
    split <;>
    simp_all

/-- C8 counterexample: with `beta_line = 1` and reduction norms
`|K dy| = 1`, `|dy| = 0` (always-rejecting data), the line-search body
at `tau_new = 1e-30 < 1e-20` does not stop with a non-convergence
error: it halves `tau_new` once more and retries. -/
theorem C8_counterexample :
    (1e-30 : ℝ) < 1e-20 ∧
    Reco.ls_step_tgv 1 1e-30 (fun _ => 1) (fun _ => 0)
      = Reco.LS.retry (1e-30 * Reco.mu_line) := by
  constructor
  · norm_num
  · simp only [Reco.ls_step_tgv, Reco.delta_line, Real.sqrt_one]
    rw [if_neg]
    norm_num

/-- C8 (amended): the backtracking loops of `tgv_solve_3D` and
`tv_solve_3D` contain no lower threshold on `tau_new` and no error
path: as long as the acceptance test fails, the step size is halved and
the body retried, for any number of passes, so `tau_new` falls below
every positive bound (in particular below `1e-20`) without any
non-convergence error being reported. -/
theorem C8_no_tau_threshold (beta tau : ℝ) (nK nY : ℝ → ℝ) (n : ℕ)
    (hrej : ∀ t : ℝ, ¬ Real.sqrt beta * t * nK t ≤ nY t * Reco.delta_line) :
    Reco.ls_run_tgv n beta tau nK nY = none ∧
    Reco.ls_run_tv n beta tau nK nY = none := by
  induction n generalizing tau with
  | zero => exact ⟨rfl, rfl⟩
  | succ n ih =>
    constructor
    · simp only [Reco.ls_run_tgv, Reco.ls_step_tgv, if_neg (hrej tau)]
      exact (ih (tau * Reco.mu_line)).1
    · simp only [Reco.ls_run_tv, Reco.ls_step_tv, if_neg (hrej tau)]
      exact (ih (tau * Reco.mu_line)).2

/-- C8 witness: always-rejecting norm data (`|K dy| = 1` against
`|dy| = -1`, formally) exhausts 80 passes of both loops with no accepted
step and no error. -/
theorem C8_no_tau_threshold_witness :
    (∀ t : ℝ, ¬ Real.sqrt 1 * t * (fun _ : ℝ => (0 : ℝ)) t
        ≤ (fun _ : ℝ => (-1 : ℝ)) t * Reco.delta_line) ∧
    (Reco.ls_run_tgv 80 1 1 (fun _ => 0) (fun _ => -1) = none ∧
     Reco.ls_run_tv 80 1 1 (fun _ => 0) (fun _ => -1) = none) := by
  have h : ∀ t : ℝ, ¬ Real.sqrt 1 * t * (fun _ : ℝ => (0 : ℝ)) t
      ≤ (fun _ : ℝ => (-1 : ℝ)) t * Reco.delta_line := by
    intro t
    simp [Reco.delta_line]
  exact ⟨h, C8_no_tau_threshold 1 1 (fun _ => 0) (fun _ => -1) 80 h⟩

namespace Reco

/-- The buffers `tgv_solve_3D` sets up before its iteration loop
(source lines 483-543), over an abstract buffer type `V` (the numpy /
pyopencl arrays; `0` is `np.zeros_like`). -/
structure TGVEntry (V : Type) where
  xk : V
  x : V
  r : V
  z1 : V
  z2 : V
  v : V
  Axold : V
  gradx_xold : V
  symgrad_v_vold : V
  Kyk1 : V
  Kyk2 : V

/-- Entry state of `tgv_solve_3D` (source lines 483-543): `xk = x.copy()`;
`r`, `z1`, `z2`, `v` are fresh zero arrays (`np.zeros_like`); then
`Axold = op.fwd(x)`, `gradx_xold = grad_op.fwd(x)`,
`symgrad_v_vold = symgrad_op.fwd(v)`, `Kyk1 = op.adjKyk1(r, z1)` and
`Kyk2 = update_Kyk2(z2, z1)` are each computed once before the loop.
`A`, `G`, `E` stand for the forward operator, gradient and symmetrized
gradient; `adjK r z1` for the fused adjoint; `updK2 z2 z1` for the
divergence combine. -/
def tgv_solve_3D_init {V : Type} [Zero V] (A G E : V → V)
    (adjK updK2 : V → V → V) (x : V) : TGVEntry V :=
  { xk := x, x := x, r := 0, z1 := 0, z2 := 0, v := 0,
    Axold := A x, gradx_xold := G x, symgrad_v_vold := E 0,
    Kyk1 := adjK 0 0, Kyk2 := updK2 0 0 }

/-- The buffers `tv_solve_3D` sets up before its iteration loop
(source lines 867-914); this variant has no `z2`, `v` or
`symgrad_v_vold`, and `gradx_xold` is recomputed inside each iteration
rather than before the loop. -/
structure TVEntry (V : Type) where
  xk : V
  x : V
  r : V
  z1 : V
  Axold : V
  Kyk1 : V

/-- Entry state of `tv_solve_3D` (source lines 867-914): `xk = x.copy()`;
`r` and `z1` are fresh zero arrays; `Axold = op.fwd(x)` and
`Kyk1 = op.adjKyk1(r, z1)` are computed once before the loop. -/
def tv_solve_3D_init {V : Type} [Zero V] (A : V → V)
    (adjK : V → V → V) (x : V) : TVEntry V :=
  { xk := x, x := x, r := 0, z1 := 0, Axold := A x, Kyk1 := adjK 0 0 }

/-- The buffers `tgv_solve_3D_explicit` sets up before its iteration
loop (source lines 691-744); this variant has no `r`, no `Axold` and no
precomputed `gradx_xold`/`symgrad_v_vold` (both are recomputed inside
each iteration, lines 762-764). -/
structure ExplEntry (V : Type) where
  xk : V
  x : V
  z1 : V
  z2 : V
  v : V
  AT : V
  ATd : V
  Kyk1 : V
  Kyk2 : V

/-- Entry state of `tgv_solve_3D_explicit` (source lines 691-744):
`xk = x.copy()`, but `z1 = self.z1`, `z2 = self.z2`, `v = self.v` are
loaded from the values persisted by the previous inner solve
(`saved_z1`, `saved_z2`, `saved_v`); `AT = op.fwd(x)`,
`ATd = op.adj(x)`, `Kyk1 = grad_op.adj(z1)`,
`Kyk2 = update_Kyk2(z2, z1)`. -/
def tgv_solve_3D_explicit_init {V : Type} (A Aadj Gadj : V → V)
    (updK2 : V → V → V) (x saved_z1 saved_z2 saved_v : V) : ExplEntry V :=
  { xk := x, x := x, z1 := saved_z1, z2 := saved_z2, v := saved_v,
    AT := A x, ATd := Aadj x, Kyk1 := Gadj saved_z1,
    Kyk2 := updK2 saved_z2 saved_z1 }

end Reco

/-- C7 counterexample: the explicit-adjoint inner solve does not start
from zero duals: entering it with persisted values `z1 = z2 = v = 1`
(as happens on every Gauss-Newton iteration after the first, since the
previous solve stores its final duals on `self`), the entry state has
`z1 = 1`, which is nonzero. -/
theorem C7_counterexample :
    (Reco.tgv_solve_3D_explicit_init (V := ℚ) id id id (fun _ _ => 0)
        0 1 1 1).z1 = 1 ∧ (1 : ℚ) ≠ 0 := by
  exact ⟨rfl, by norm_num⟩

/-- C7 (amended): at entry to `tgv_solve_3D` the linearization point
`xk` equals the incoming `x`, the duals `r`, `z1`, `z2` and the
auxiliary `v` are zero, and `Axold`, `gradx_xold`, `symgrad_v_vold` are
computed once from the initial `x` and `v` before the first iteration;
at entry to `tv_solve_3D` likewise `xk = x`, `r = z1 = 0` and `Axold`
is precomputed (this variant has no `z2`, `v` or `symgrad_v_vold`, and
recomputes `gradx_xold` inside each iteration); `tgv_solve_3D_explicit`
instead loads `z1`, `z2`, `v` from the values persisted by the previous
solve and recomputes `gradx_xold` and `symgrad_v_vold` inside each
iteration. -/
theorem C7_inner_solve_init {V : Type} [Zero V] (A G E Aadj Gadj : V → V)
    (adjK updK2 : V → V → V) (x s1 s2 sv : V) :
    (Reco.tgv_solve_3D_init A G E adjK updK2 x).xk = x ∧
    (Reco.tgv_solve_3D_init A G E adjK updK2 x).x = x ∧
    (Reco.tgv_solve_3D_init A G E adjK updK2 x).r = 0 ∧
    (Reco.tgv_solve_3D_init A G E adjK updK2 x).z1 = 0 ∧
    (Reco.tgv_solve_3D_init A G E adjK updK2 x).z2 = 0 ∧
    (Reco.tgv_solve_3D_init A G E adjK updK2 x).v = 0 ∧
    (Reco.tgv_solve_3D_init A G E adjK updK2 x).Axold = A x ∧
    (Reco.tgv_solve_3D_init A G E adjK updK2 x).gradx_xold = G x ∧
    (Reco.tgv_solve_3D_init A G E adjK updK2 x).symgrad_v_vold = E 0 ∧
    (Reco.tv_solve_3D_init A adjK x).xk = x ∧
    (Reco.tv_solve_3D_init A adjK x).r = 0 ∧
    (Reco.tv_solve_3D_init A adjK x).z1 = 0 ∧
    (Reco.tv_solve_3D_init A adjK x).Axold = A x ∧
    (Reco.tgv_solve_3D_explicit_init A Aadj Gadj updK2 x s1 s2 sv).xk
      = x ∧
    (Reco.tgv_solve_3D_explicit_init A Aadj Gadj updK2 x s1 s2 sv).z1
      = s1 ∧
    (Reco.tgv_solve_3D_explicit_init A Aadj Gadj updK2 x s1 s2 sv).z2
      = s2 ∧
    (Reco.tgv_solve_3D_explicit_init A Aadj Gadj updK2 x s1 s2 sv).v
      = sv :=
  ⟨rfl, rfl, rfl, rfl, rfl, rfl, rfl, rfl, rfl, rfl, rfl, rfl, rfl, rfl,
    rfl, rfl, rfl⟩

namespace Reco

/-- Squared Euclidean norm of a flattened complex array: the sum of the
squared moduli of the entries (`np.linalg.norm(.)**2`). -/
noncomputable def cnormSq (l : List ℂ) : ℝ := (l.map Complex.normSq).sum

/-- `np.linalg.norm` of a flattened complex array. -/
noncomputable def l2norm (l : List ℂ) : ℝ := Real.sqrt (cnormSq l)

/-- The per-unknown factor computed by `_balance_model_gradients`
(source lines 229-237): `scale[uk] = 1e3 / sqrt(unknowns) / |grad_x[uk]|`
where the norm is taken over the flattened Jacobian slice. -/
noncomputable def balance_scale (U : ℕ) (g : List ℂ) : ℝ :=
  1e3 / Real.sqrt U / l2norm g

/-- The per-unknown body of the balancing loop (source lines 239-245)
for one unknown: voxel values `x`, Jacobian slice `g`, scale
`c = uk_scale[uk]` and factor `s = scale[uk]`; in order,
`x *= c; g /= c; c *= s; x /= c; g *= c`, returning the new
`(uk_scale[uk], x, grad_x[uk])`. The `constraints[uk].update(scale[uk])`
call on the same line divides the box bounds by `s` and touches none of
these three. -/
noncomputable def balance_uk (c s : ℝ) (x g : List ℂ) :
    ℝ × List ℂ × List ℂ :=
  let x1 := x.map (fun z => z * (c : ℂ))
  let g1 := g.map (fun z => z / (c : ℂ))
  let c1 := c * s
  let x2 := x1.map (fun z => z / ((c1 : ℝ) : ℂ))
  let g2 := g1.map (fun z => z * ((c1 : ℝ) : ℂ))
  (c1, x2, g2)

/-- `ModelReco._balance_model_gradients` restricted to one unknown `uk`
(the loop touches each unknown independently): the factor of lines
229-237 applied through the loop body of lines 239-245. The
`np.mod(ind, 1)` guard is always zero, so the body runs on every
Gauss-Newton iteration. -/
noncomputable def balance_model_gradients (U : ℕ) (c : ℝ) (x g : List ℂ) :
    ℝ × List ℂ × List ℂ :=
  balance_uk c (balance_scale U g) x g

theorem cnormSq_nonneg (l : List ℂ) : 0 ≤ cnormSq l := by
  induction l with
  | nil => simp [cnormSq]
  | cons a t ih =>
    simp only [cnormSq, List.map_cons, List.sum_cons]
    exact add_nonneg (Complex.normSq_nonneg a) ih

theorem cnormSq_map_mul_ofReal (s : ℝ) (l : List ℂ) :
    cnormSq (l.map (fun z => z * (s : ℂ))) = cnormSq l * (s * s) := by
  induction l with
  | nil => simp [cnormSq]
  | cons a t ih =>
    simp only [cnormSq, List.map_cons, List.sum_cons] at *
    rw [Complex.normSq_mul, Complex.normSq_ofReal, ih]
    ring

end Reco

/-- C1: the balancing step `_balance_model_gradients` leaves the
per-voxel product `x[u] * uk_scale[u]` unchanged for every unknown `u`
(exactly, in real arithmetic — hence up to 1 ULP in single precision),
and afterwards the Euclidean norm of the flattened Jacobian slice
`grad_x[u]` equals `10^3 / sqrt(U)` (exactly in real arithmetic — hence
within 1 %), provided the old scale is nonzero and the slice is not
identically zero. -/
theorem C1_balance_invariant (U : ℕ) (c : ℝ) (x g : List ℂ)
    (hU : 0 < U) (hc : c ≠ 0) (hg : Reco.cnormSq g ≠ 0) :
    ((Reco.balance_model_gradients U c x g).2.1).map
        (fun z => z * (((Reco.balance_model_gradients U c x g).1 : ℝ) : ℂ))
      = x.map (fun z => z * ((c : ℝ) : ℂ)) ∧
    Reco.l2norm (Reco.balance_model_gradients U c x g).2.2
      = 1e3 / Real.sqrt U := by
  have hgpos : 0 < Reco.cnormSq g := lt_of_le_of_ne (Reco.cnormSq_nonneg g)
    (Ne.symm hg)
  have hnm : 0 < Reco.l2norm g := Real.sqrt_pos.mpr hgpos
  have hU2 : (0 : ℝ) < Real.sqrt U := Real.sqrt_pos.mpr (by exact_mod_cast hU)
  have hs : 0 < Reco.balance_scale U g := by
    unfold Reco.balance_scale
    positivity
  have hc1 : c * Reco.balance_scale U g ≠ 0 := mul_ne_zero hc (ne_of_gt hs)
  constructor
  · simp only [Reco.balance_model_gradients, Reco.balance_uk, List.map_map]
    refine List.map_congr_left ?_
    intro z _
    simp only [Function.comp_apply]
    rw [div_mul_cancel₀]
    exact_mod_cast hc1
  · have hrw : (Reco.balance_model_gradients U c x g).2.2
        = g.map (fun z => z * ((Reco.balance_scale U g : ℝ) : ℂ)) := by
      simp only [Reco.balance_model_gradients, Reco.balance_uk, List.map_map]
      refine List.map_congr_left ?_
      intro z _
      have hcC : ((c : ℝ) : ℂ) ≠ 0 := by exact_mod_cast hc
      simp only [Function.comp_apply]
      rw [Complex.ofReal_mul, div_mul_eq_mul_div, mul_comm ((c : ℝ) : ℂ),
        ← mul_assoc, mul_div_assoc, div_self hcC, mul_one]
    rw [hrw]
    unfold Reco.l2norm
    rw [Reco.cnormSq_map_mul_ofReal, Real.sqrt_mul (Reco.cnormSq_nonneg g),
      Real.sqrt_mul_self (le_of_lt hs)]
    show Reco.l2norm g * Reco.balance_scale U g = _
    unfold Reco.balance_scale
    field_simp
    ring

/-- C1 witness: one unknown (`U = 1`), unit scale, a single voxel and a
single Jacobian entry of modulus 1. -/
theorem C1_balance_invariant_witness :
    0 < 1 ∧ (1 : ℝ) ≠ 0 ∧ Reco.cnormSq [(1 : ℂ)] ≠ 0 ∧
    (((Reco.balance_model_gradients 1 1 [1] [1]).2.1).map
        (fun z => z * (((Reco.balance_model_gradients 1 1 [1] [1]).1 : ℝ) : ℂ))
      = [(1 : ℂ)].map (fun z => z * (((1 : ℝ) : ℝ) : ℂ)) ∧
    Reco.l2norm (Reco.balance_model_gradients 1 1 [1] [1]).2.2
      = 1e3 / Real.sqrt ((1 : ℕ) : ℝ)) :=
  ⟨Nat.one_pos, one_ne_zero, by simp [Reco.cnormSq],
    C1_balance_invariant 1 1 [1] [1] Nat.one_pos one_ne_zero
      (by simp [Reco.cnormSq])⟩

namespace DiffdirLL

/-- Scalar (per-voxel) form of the `ADC_x` component of `Model.rescale`
(`pyqmri/models/DiffdirLL.py`, lines 124-140):
`np.real(x[1]**2) * uk_scale[1]**2`. -/
noncomputable def ADC_x (c1 : ℝ) (x1 : ℂ) : ℝ := (x1 ^ 2).re * c1 ^ 2

/-- `ADC_xy = np.real(x[2]*uk_scale[2] * x[1]*uk_scale[1])`. -/
noncomputable def ADC_xy (c1 c2 : ℝ) (x1 x2 : ℂ) : ℝ :=
  (x2 * (c2 : ℂ) * x1 * (c1 : ℂ)).re

/-- `ADC_y = np.real(x[2]**2*uk_scale[2]**2 + x[3]**2*uk_scale[3]**2)`. -/
noncomputable def ADC_y (c2 c3 : ℝ) (x2 x3 : ℂ) : ℝ :=
  (x2 ^ 2 * ((c2 : ℂ)) ^ 2 + x3 ^ 2 * ((c3 : ℂ)) ^ 2).re

/-- `ADC_xz = np.real(x[4]*uk_scale[4] * x[1]*uk_scale[1])`. -/
noncomputable def ADC_xz (c1 c4 : ℝ) (x1 x4 : ℂ) : ℝ :=
  (x4 * (c4 : ℂ) * x1 * (c1 : ℂ)).re

/-- `ADC_z = np.real(x[4]**2*uk_scale[4]**2 + x[5]**2*uk_scale[5]**2 +
x[6]**2*uk_scale[6]**2)`. -/
noncomputable def ADC_z (c4 c5 c6 : ℝ) (x4 x5 x6 : ℂ) : ℝ :=
  (x4 ^ 2 * ((c4 : ℂ)) ^ 2 + x5 ^ 2 * ((c5 : ℂ)) ^ 2
    + x6 ^ 2 * ((c6 : ℂ)) ^ 2).re

/-- `ADC_yz = np.real(x[2]*uk_scale[2]*x[4]*uk_scale[4] +
x[6]*uk_scale[6]*x[3]*uk_scale[3])`. -/
noncomputable def ADC_yz (c2 c3 c4 c6 : ℝ) (x2 x3 x4 x6 : ℂ) : ℝ :=
  (x2 * (c2 : ℂ) * x4 * (c4 : ℂ) + x6 * (c6 : ℂ) * x3 * (c3 : ℂ)).re

/-- The 3×3 diffusion tensor assembled per voxel from the components
returned by `Model.rescale`: diagonal `(ADC_x, ADC_y, ADC_z)`,
off-diagonals `(ADC_xy, ADC_xz, ADC_yz)` placed symmetrically. -/
noncomputable def DTItensor (c1 c2 c3 c4 c5 c6 : ℝ) (x1 x2 x3 x4 x5 x6 : ℂ) :
    Matrix (Fin 3) (Fin 3) ℝ :=
  !![ADC_x c1 x1, ADC_xy c1 c2 x1 x2, ADC_xz c1 c4 x1 x4;
     ADC_xy c1 c2 x1 x2, ADC_y c2 c3 x2 x3, ADC_yz c2 c3 c4 c6 x2 x3 x4 x6;
     ADC_xz c1 c4 x1 x4, ADC_yz c2 c3 c4 c6 x2 x3 x4 x6,
       ADC_z c4 c5 c6 x4 x5 x6]

/-- The lower-triangular Cholesky factor whose nonzero entries are the
scaled factors `x[u] * uk_scale[u]` (`x[1..6]` real-valued, placed as
`L = [[a1,0,0],[a2,a3,0],[a4,a6,a5]]` with `au = x[u]*uk_scale[u]`). -/
noncomputable def cholFactor (c1 c2 c3 c4 c5 c6 : ℝ)
    (x1 x2 x3 x4 x5 x6 : ℂ) : Matrix (Fin 3) (Fin 3) ℝ :=
  !![x1.re * c1, 0, 0;
     x2.re * c2, x3.re * c3, 0;
     x4.re * c4, x6.re * c6, x5.re * c5]

end DiffdirLL

/-- C9: for the Cholesky-parametrized diffusion model with real-valued
unknowns `x[1..6]` (the real-flag constraints), the 3×3 matrix assembled
per voxel from the `Model.rescale` components equals `L * L^T` for the
lower-triangular `L` whose nonzero entries are the scaled factors
`x[u] * uk_scale[u]`, and is therefore symmetric positive
semidefinite. -/
theorem C9_cholesky_spsd (c1 c2 c3 c4 c5 c6 : ℝ) (x1 x2 x3 x4 x5 x6 : ℂ)
    (h1 : x1.im = 0) (h2 : x2.im = 0) (h3 : x3.im = 0) (h4 : x4.im = 0)
    (h5 : x5.im = 0) (h6 : x6.im = 0) :
    DiffdirLL.DTItensor c1 c2 c3 c4 c5 c6 x1 x2 x3 x4 x5 x6
      = DiffdirLL.cholFactor c1 c2 c3 c4 c5 c6 x1 x2 x3 x4 x5 x6
        * (DiffdirLL.cholFactor c1 c2 c3 c4 c5 c6 x1 x2 x3 x4 x5 x6).transpose ∧
    (DiffdirLL.DTItensor c1 c2 c3 c4 c5 c6 x1 x2 x3 x4 x5 x6).PosSemidef
    := by
  have hLT : DiffdirLL.DTItensor c1 c2 c3 c4 c5 c6 x1 x2 x3 x4 x5 x6
      = DiffdirLL.cholFactor c1 c2 c3 c4 c5 c6 x1 x2 x3 x4 x5 x6
        * (DiffdirLL.cholFactor c1 c2 c3 c4 c5 c6 x1 x2 x3 x4 x5 x6).transpose := by
    ext i j
    fin_cases i <;> fin_cases j <;>
      simp [DiffdirLL.DTItensor, DiffdirLL.cholFactor, DiffdirLL.ADC_x,
        DiffdirLL.ADC_xy, DiffdirLL.ADC_y, DiffdirLL.ADC_xz,
        DiffdirLL.ADC_z, DiffdirLL.ADC_yz, Matrix.mul_apply,
        Matrix.transpose_apply, Matrix.vecHead, Matrix.vecTail,
        Function.comp, Matrix.transpose,
        Fin.sum_univ_three, pow_two, Complex.add_re, Complex.mul_re,
        Complex.mul_im, Complex.ofReal_re, Complex.ofReal_im,
        h1, h2, h3, h4, h5, h6] <;>
      ring
  refine ⟨hLT, hLT ▸ ?_⟩
  have h := Matrix.posSemidef_self_mul_conjTranspose
    (DiffdirLL.cholFactor c1 c2 c3 c4 c5 c6 x1 x2 x3 x4 x5 x6)
  rwa [Matrix.conjTranspose_eq_transpose_of_trivial] at h

/-- C9 witness: the unit voxel `x[1..6] = 1` with unit scales. -/
theorem C9_cholesky_spsd_witness :
    ((1 : ℂ).im = 0) ∧
    (DiffdirLL.DTItensor 1 1 1 1 1 1 1 1 1 1 1 1
      = DiffdirLL.cholFactor 1 1 1 1 1 1 1 1 1 1 1 1
        * (DiffdirLL.cholFactor 1 1 1 1 1 1 1 1 1 1 1 1).transpose ∧
    (DiffdirLL.DTItensor 1 1 1 1 1 1 1 1 1 1 1 1).PosSemidef) :=
  ⟨Complex.one_im,
    C9_cholesky_spsd 1 1 1 1 1 1 1 1 1 1 1 1 Complex.one_im Complex.one_im
      Complex.one_im Complex.one_im Complex.one_im Complex.one_im⟩

/-- Extended machine value: a finite number (idealized as a real) or a
non-finite value (NaN or an infinity, which `np.isfinite` rejects).
Arithmetic on finite operands is exact real arithmetic except that a
division by zero yields a non-finite value (IEEE: `x/0 = +-inf`,
`0/0 = NaN`) and a real power of a negative base, or of a zero base
with a negative exponent, yields a non-finite value (numpy: NaN resp.
`inf`); an operation with a non-finite operand is modelled as
non-finite, which agrees with IEEE for every operation on the evaluation
paths embedded below. -/
inductive EVal where
  | fin (val : ℝ)
  | nonfinite

namespace EVal

noncomputable def add : EVal → EVal → EVal
  | fin x, fin y => fin (x + y)
  | _, _ => nonfinite

noncomputable def sub : EVal → EVal → EVal
  | fin x, fin y => fin (x - y)
  | _, _ => nonfinite

noncomputable def mul : EVal → EVal → EVal
  | fin x, fin y => fin (x * y)
  | _, _ => nonfinite

noncomputable def neg : EVal → EVal
  | fin x => fin (-x)
  | nonfinite => nonfinite

noncomputable def div : EVal → EVal → EVal
  | fin x, fin y => if y = 0 then nonfinite else fin (x / y)
  | _, _ => nonfinite

noncomputable def npow : EVal → ℕ → EVal
  | fin x, n => fin (x ^ n)
  | nonfinite, _ => nonfinite

noncomputable def rpow : EVal → ℝ → EVal
  | fin x, e =>
    if x < 0 then nonfinite
    else if x = 0 ∧ e < 0 then nonfinite
    else fin (x ^ e)
  | nonfinite, _ => nonfinite

noncomputable def exp : EVal → EVal
  | fin x => fin (Real.exp x)
  | nonfinite => nonfinite

noncomputable instance : Add EVal := ⟨add⟩

noncomputable instance : Sub EVal := ⟨sub⟩

noncomputable instance : Mul EVal := ⟨mul⟩

noncomputable instance : Neg EVal := ⟨neg⟩

noncomputable instance : Div EVal := ⟨div⟩

noncomputable instance : Pow EVal ℕ := ⟨npow⟩

noncomputable instance : Zero EVal := ⟨fin 0⟩

noncomputable instance (n : ℕ) : OfNat EVal n := ⟨fin n⟩

/-- `np.isfinite` of one entry. -/
def isFinite : EVal → Bool
  | fin _ => true
  | nonfinite => false

/-- The post-filter `A[~np.isfinite(A)] = 0` applied to one entry. -/
noncomputable def zeroNonfinite : EVal → EVal
  | fin x => fin x
  | nonfinite => fin 0

theorem isFinite_zeroNonfinite (a : EVal) :
    (zeroNonfinite a).isFinite = true := by
  cases a <;> rfl

theorem fin_add_fin (x y : ℝ) : fin x + fin y = fin (x + y) := rfl

theorem fin_sub_fin (x y : ℝ) : fin x - fin y = fin (x - y) := rfl

theorem fin_mul_fin (x y : ℝ) : fin x * fin y = fin (x * y) := rfl

theorem neg_fin (x : ℝ) : -fin x = fin (-x) := rfl

theorem fin_div_fin (x y : ℝ) :
    fin x / fin y = if y = 0 then nonfinite else fin (x / y) := rfl

theorem fin_pow (x : ℝ) (n : ℕ) : fin x ^ n = fin (x ^ n) := rfl

theorem nonfinite_add (a : EVal) : nonfinite + a = nonfinite := by
  cases a <;> rfl

theorem add_nonfinite (a : EVal) : a + nonfinite = nonfinite := by
  cases a <;> rfl

theorem nonfinite_sub (a : EVal) : nonfinite - a = nonfinite := by
  cases a <;> rfl

theorem sub_nonfinite (a : EVal) : a - nonfinite = nonfinite := by
  cases a <;> rfl

theorem nonfinite_mul (a : EVal) : nonfinite * a = nonfinite := by
  cases a <;> rfl

theorem mul_nonfinite (a : EVal) : a * nonfinite = nonfinite := by
  cases a <;> rfl

theorem nonfinite_div (a : EVal) : nonfinite / a = nonfinite := by
  cases a <;> rfl

theorem div_nonfinite (a : EVal) : a / nonfinite = nonfinite := by
  cases a <;> rfl

theorem neg_nonfinite : -nonfinite = nonfinite := rfl

theorem nonfinite_pow (n : ℕ) : nonfinite ^ n = nonfinite := rfl

theorem zero_eq : (0 : EVal) = fin 0 := by
  show fin ((0 : ℕ) : ℝ) = fin 0
  norm_num

theorem rpow_fin_one (e : ℝ) : rpow (fin 1) e = fin 1 := by
  simp [rpow, Real.one_rpow]

theorem one_eq : (1 : EVal) = fin 1 := by
  show fin ((1 : ℕ) : ℝ) = fin 1
  norm_num

theorem two_eq : (2 : EVal) = fin 2 := by
  show fin ((2 : ℕ) : ℝ) = fin 2
  norm_num

end EVal

namespace DiffdirLL

/-- Per-voxel, per-scan element of `Model._execute_forward_3D`
(`pyqmri/models/DiffdirLL.py`, lines 142-166) over extended values:
the quadratic (Cholesky) ADC form, `S = x0*c0*exp(-ADC*b)`, the phase
multiplication, then the filter `S[~np.isfinite(S)] = 0`. -/
noncomputable def execute_forward_elem
    (c0 c1 c2 c3 c4 c5 c6 d0 d1 d2 b phase x0 x1 x2 x3 x4 x5 x6 : EVal) :
    EVal :=
  let ADC := x1 ^ 2 * c1 ^ 2 * d0 ^ 2 +
    (x2 ^ 2 * c2 ^ 2 + x3 ^ 2 * c3 ^ 2) * d1 ^ 2 +
    (x4 ^ 2 * c4 ^ 2 + x5 ^ 2 * c5 ^ 2 + x6 ^ 2 * c6 ^ 2) * d2 ^ 2 +
    2 * (x2 * c2 * x1 * c1) * d0 * d1 +
    2 * (x4 * c4 * x1 * c1) * d0 * d2 +
    2 * (x2 * c2 * x4 * c4 + x6 * c6 * x3 * c3) * d1 * d2
  let S := x0 * c0 * EVal.exp (-(ADC * b))
  EVal.zeroNonfinite (S * phase)

/-- Per-voxel, per-scan entries of `Model._execute_gradient_3D`
(`pyqmri/models/DiffdirLL.py`, lines 168-233) over extended values: the
seven partial-derivative entries, then the filter
`grad[~np.isfinite(grad)] = 0` applied to every entry. -/
noncomputable def execute_gradient_elems
    (c0 c1 c2 c3 c4 c5 c6 d0 d1 d2 b phase x0 x1 x2 x3 x4 x5 x6 : EVal) :
    List EVal :=
  let ADC := x1 ^ 2 * c1 ^ 2 * d0 ^ 2 +
    (x2 ^ 2 * c2 ^ 2 + x3 ^ 2 * c3 ^ 2) * d1 ^ 2 +
    (x4 ^ 2 * c4 ^ 2 + x5 ^ 2 * c5 ^ 2 + x6 ^ 2 * c6 ^ 2) * d2 ^ 2 +
    2 * (x2 * c2 * x1 * c1) * d0 * d1 +
    2 * (x4 * c4 * x1 * c1) * d0 * d2 +
    2 * (x2 * c2 * x4 * c4 + x6 * c6 * x3 * c3) * d1 * d2
  let grad_M0 := c0 * EVal.exp (-(ADC * b)) * phase
  let grad_ADC_x := -x0 * b * grad_M0 *
    (2 * x1 * c1 ^ 2 * d0 ^ 2 + 2 * c1 * x2 * c2 * d0 * d1 +
      2 * c1 * x4 * c4 * d0 * d2)
  let grad_ADC_xy := -x0 * b * grad_M0 *
    (2 * x1 * c1 * c2 * d0 * d1 + 2 * x2 * c2 ^ 2 * d1 ^ 2 +
      2 * c2 * x4 * c4 * d1 * d2)
  let grad_ADC_y := -x0 * b * grad_M0 *
    (2 * x3 * c3 ^ 2 * d1 ^ 2 + 2 * c3 * x6 * c6 * d1 * d2)
  let grad_ADC_xz := -x0 * b * grad_M0 *
    (2 * x1 * c1 * c4 * d0 * d2 + 2 * x2 * c2 * c4 * d1 * d2 +
      2 * x4 * c4 ^ 2 * d2 ^ 2)
  let grad_ADC_z := -2 * x5 * c5 ^ 2 * x0 * b * d2 ^ 2 * grad_M0
  let grad_ADC_yz := -x0 * b * grad_M0 *
    (2 * x3 * c3 * c6 * d1 * d2 + 2 * x6 * c6 ^ 2 * d2 ^ 2)
  [grad_M0, grad_ADC_x, grad_ADC_xy, grad_ADC_y, grad_ADC_xz, grad_ADC_z,
    grad_ADC_yz].map EVal.zeroNonfinite

end DiffdirLL

namespace Diffdir

/-- Per-voxel, per-scan element of `Model._execute_forward_3D`
(`mbpq/_models/Diffdir.py`, lines 104-118) over extended values: the
linear ADC form, `S = x0*c0*exp(-ADC*b)`, the phase multiplication,
then the filter `S[~np.isfinite(S)] = 0`. -/
noncomputable def execute_forward_elem
    (c0 c1 c2 c3 c4 c5 c6 d0 d1 d2 b phase x0 x1 x2 x3 x4 x5 x6 : EVal) :
    EVal :=
  let ADC := x1 * c1 * d0 ^ 2 + x3 * c3 * d1 ^ 2 + x5 * c5 * d2 ^ 2 +
    2 * x2 * c2 * d0 * d1 + 2 * x4 * c4 * d0 * d2 + 2 * x6 * c6 * d1 * d2
  let S := x0 * c0 * EVal.exp (-(ADC * b))
  EVal.zeroNonfinite (S * phase)

/-- Per-voxel, per-scan entries of `Model._execute_gradient_3D`
(`mbpq/_models/Diffdir.py`, lines 120-155) over extended values, with
the final filter `grad[~np.isfinite(grad)] = 0`. -/
noncomputable def execute_gradient_elems
    (c0 c1 c2 c3 c4 c5 c6 d0 d1 d2 b phase x0 x1 x2 x3 x4 x5 x6 : EVal) :
    List EVal :=
  let ADC := x1 * c1 * d0 ^ 2 + x3 * c3 * d1 ^ 2 + x5 * c5 * d2 ^ 2 +
    2 * x2 * c2 * d0 * d1 + 2 * x4 * c4 * d0 * d2 + 2 * x6 * c6 * d1 * d2
  let grad_M0 := c0 * EVal.exp (-(ADC * b)) * phase
  let grad_ADC_x := x0 * grad_M0 * (-c1 * d0 ^ 2 * b)
  let grad_ADC_xy := x0 * grad_M0 * (-2 * c2 * d0 * d1 * b)
  let grad_ADC_y := x0 * grad_M0 * (-c3 * d1 ^ 2 * b)
  let grad_ADC_xz := x0 * grad_M0 * (-2 * c4 * d0 * d2 * b)
  let grad_ADC_z := x0 * grad_M0 * (-c5 * d2 ^ 2 * b)
  let grad_ADC_yz := x0 * grad_M0 * (-2 * c6 * d1 * d2 * b)
  [grad_M0, grad_ADC_x, grad_ADC_xy, grad_ADC_y, grad_ADC_xz, grad_ADC_z,
    grad_ADC_yz].map EVal.zeroNonfinite

end Diffdir

namespace IRLL

/-- One summand `S[i, j]` of `IRLL_Model.execute_forward_3D`
(`IRLL_Model.py`, lines 185-213), at echo index `n = i*Nproj + j + 1`,
over extended values. The model applies NO non-finite filter. -/
noncomputable def Sij (TR tau td scale : ℝ) (N : ℕ)
    (sin_phi cos_phi M0 M0_sc T1_sc x1 : EVal) (n : ℕ) : EVal :=
  let Efit := x1 * T1_sc
  let Etau := EVal.rpow Efit (tau / scale)
  let Etr := EVal.rpow Efit (TR / scale)
  let Etd := EVal.rpow Efit (td / scale)
  let F := (1 - Etau) / (1 - Etau * cos_phi)
  let Q := (-(Etr * Etd * F * (-((Etau * cos_phi) ^ (N - 1)) + 1) * cos_phi)
      + Etr * Etd - 2 * Etd + 1) /
    (Etr * Etd * (Etau * cos_phi) ^ (N - 1) * cos_phi + 1)
  let Q_F := Q - F
  M0 * M0_sc * ((Etau * cos_phi) ^ (n - 1) * Q_F + F) * sin_phi

/-- `np.mean` along the projection axis. -/
noncomputable def meanE (l : List EVal) : EVal := l.sum / EVal.fin l.length

/-- `IRLL_Model.execute_forward_3D` for one voxel: the `NLL`-long scan
series, each scan the mean of its `Nproj` projections; no non-finite
filter is applied before returning. -/
noncomputable def execute_forward_3D (TR tau td scale : ℝ)
    (N NLL Nproj : ℕ) (sin_phi cos_phi M0 M0_sc T1_sc x1 : EVal) :
    List EVal :=
  (List.range NLL).map (fun i =>
    meanE ((List.range Nproj).map (fun j =>
      Sij TR tau td scale N sin_phi cos_phi M0 M0_sc T1_sc x1
        (i * Nproj + j + 1))))

end IRLL

/-- C4 counterexample: the IRLL model returns a non-finite entry. With
`TR = 5`, `tau = 30`, `td = 200`, `scale = 100`, `N = 13`, a single scan
and projection, and a voxel where `cos_phi = 1`, `sin_phi = 0` (a zero
effective flip angle) and `x1 * T1_sc = 1`, the term
`F = (1 - Etau)/(1 - Etau*cos_phi) = 0/0` is NaN and propagates into the
returned array: the model has no non-finite filter, so the caller
receives a non-finite entry. -/
theorem C4_counterexample :
    IRLL.execute_forward_3D 5 30 200 100 13 1 1
        (EVal.fin 0) (EVal.fin 1) (EVal.fin 1) (EVal.fin 1) (EVal.fin 1)
        (EVal.fin 1)
      = [EVal.nonfinite] := by
  show [IRLL.meanE [IRLL.Sij 5 30 200 100 13 (EVal.fin 0) (EVal.fin 1)
    (EVal.fin 1) (EVal.fin 1) (EVal.fin 1) (EVal.fin 1) 1]] = _
  simp only [IRLL.Sij, IRLL.meanE, List.sum_cons,
    List.sum_nil, List.length_cons, List.length_nil, EVal.one_eq,
    EVal.two_eq, EVal.zero_eq, EVal.fin_add_fin, EVal.fin_sub_fin,
    EVal.fin_mul_fin, EVal.neg_fin, EVal.fin_pow, EVal.fin_div_fin,
    EVal.nonfinite_add, EVal.add_nonfinite, EVal.nonfinite_sub,
    EVal.sub_nonfinite, EVal.nonfinite_mul, EVal.mul_nonfinite,
    EVal.nonfinite_div, EVal.div_nonfinite, EVal.neg_nonfinite,
    EVal.nonfinite_pow, EVal.rpow_fin_one]
  norm_num [EVal.fin_add_fin, EVal.fin_sub_fin, EVal.fin_mul_fin,
    EVal.neg_fin, EVal.fin_pow, EVal.fin_div_fin, EVal.nonfinite_add,
    EVal.add_nonfinite, EVal.nonfinite_sub, EVal.sub_nonfinite,
    EVal.nonfinite_mul, EVal.mul_nonfinite, EVal.nonfinite_div,
    EVal.div_nonfinite, EVal.neg_nonfinite, EVal.nonfinite_pow,
    EVal.rpow_fin_one]

/-- C4 (amended): the diffusion models (the Cholesky-parametrized
`DiffdirLL` model and the linear `Diffdir` model) return no non-finite
entries from their forward and Jacobian evaluations: the final
`[~np.isfinite] = 0` filter zeroes every NaN or infinite value. The
IRLL model applies no such filter and can return non-finite entries
(see the counterexample). -/
theorem C4_diffusion_filter_nonfinite
    (c0 c1 c2 c3 c4 c5 c6 d0 d1 d2 b phase x0 x1 x2 x3 x4 x5 x6 : EVal) :
    (DiffdirLL.execute_forward_elem c0 c1 c2 c3 c4 c5 c6 d0 d1 d2 b phase
        x0 x1 x2 x3 x4 x5 x6).isFinite = true ∧
    (∀ e ∈ DiffdirLL.execute_gradient_elems c0 c1 c2 c3 c4 c5 c6 d0 d1 d2
        b phase x0 x1 x2 x3 x4 x5 x6, e.isFinite = true) ∧
    (Diffdir.execute_forward_elem c0 c1 c2 c3 c4 c5 c6 d0 d1 d2 b phase
        x0 x1 x2 x3 x4 x5 x6).isFinite = true ∧
    (∀ e ∈ Diffdir.execute_gradient_elems c0 c1 c2 c3 c4 c5 c6 d0 d1 d2
        b phase x0 x1 x2 x3 x4 x5 x6, e.isFinite = true) := by
  refine ⟨EVal.isFinite_zeroNonfinite _, ?_,
    EVal.isFinite_zeroNonfinite _, ?_⟩
  · intro e he
    simp only [DiffdirLL.execute_gradient_elems, List.mem_map] at he
    obtain ⟨a, -, rfl⟩ := he
    exact EVal.isFinite_zeroNonfinite a
  · intro e he
    simp only [Diffdir.execute_gradient_elems, List.mem_map] at he
    obtain ⟨a, -, rfl⟩ := he
    exact EVal.isFinite_zeroNonfinite a

namespace DiffdirLL

/-- Per-voxel, per-scan ADC quadratic form of `_execute_forward_3D` and
`_execute_gradient_3D` (`pyqmri/models/DiffdirLL.py`, lines 143-159 and
169-185), over the complex working precision of the source (scalars
`uk_scale`, `dir`, `b` broadcast into the complex arrays). -/
noncomputable def ADC (c1 c2 c3 c4 c5 c6 d0 d1 d2 x1 x2 x3 x4 x5 x6 : ℂ) : ℂ :=
  x1 ^ 2 * c1 ^ 2 * d0 ^ 2 +
    (x2 ^ 2 * c2 ^ 2 + x3 ^ 2 * c3 ^ 2) * d1 ^ 2 +
    (x4 ^ 2 * c4 ^ 2 + x5 ^ 2 * c5 ^ 2 + x6 ^ 2 * c6 ^ 2) * d2 ^ 2 +
    2 * (x2 * c2 * x1 * c1) * d0 * d1 +
    2 * (x4 * c4 * x1 * c1) * d0 * d2 +
    2 * (x2 * c2 * x4 * c4 + x6 * c6 * x3 * c3) * d1 * d2

/-- Per-voxel, per-scan element of `_execute_forward_3D` (lines
161-164): `S = x0 * uk_scale[0] * exp(-ADC * b)`, multiplied by the
stored phase. -/
noncomputable def S (c0 c1 c2 c3 c4 c5 c6 d0 d1 d2 b phase x0 x1 x2 x3 x4 x5 x6 : ℂ) : ℂ :=
  x0 * c0 * Complex.exp (-ADC c1 c2 c3 c4 c5 c6 d0 d1 d2 x1 x2 x3 x4 x5 x6 * b) * phase

/-- `grad_M0` of `_execute_gradient_3D` (lines 187-190), with the phase
multiplied in. -/
noncomputable def grad_M0 (c0 c1 c2 c3 c4 c5 c6 d0 d1 d2 b phase x0 x1 x2 x3 x4 x5 x6 : ℂ) : ℂ :=
  c0 * Complex.exp (-ADC c1 c2 c3 c4 c5 c6 d0 d1 d2 x1 x2 x3 x4 x5 x6 * b) * phase
/-- `grad_ADC_x` of `_execute_gradient_3D` (lines 191-196). -/
noncomputable def grad_ADC_x (c0 c1 c2 c3 c4 c5 c6 d0 d1 d2 b phase x0 x1 x2 x3 x4 x5 x6 : ℂ) : ℂ :=
  -x0 * b * (grad_M0 c0 c1 c2 c3 c4 c5 c6 d0 d1 d2 b phase x0 x1 x2 x3 x4 x5 x6) *
    (2 * x1 * c1 ^ 2 * d0 ^ 2 + 2 * c1 * x2 * c2 * d0 * d1 +
      2 * c1 * x4 * c4 * d0 * d2)
/-- `grad_ADC_xy` of `_execute_gradient_3D` (lines 197-203). -/
noncomputable def grad_ADC_xy (c0 c1 c2 c3 c4 c5 c6 d0 d1 d2 b phase x0 x1 x2 x3 x4 x5 x6 : ℂ) : ℂ :=
  -x0 * b * (grad_M0 c0 c1 c2 c3 c4 c5 c6 d0 d1 d2 b phase x0 x1 x2 x3 x4 x5 x6) *
    (2 * x1 * c1 * c2 * d0 * d1 + 2 * x2 * c2 ^ 2 * d1 ^ 2 +
      2 * c2 * x4 * c4 * d1 * d2)
/-- `grad_ADC_y` of `_execute_gradient_3D` (lines 205-208). -/
noncomputable def grad_ADC_y (c0 c1 c2 c3 c4 c5 c6 d0 d1 d2 b phase x0 x1 x2 x3 x4 x5 x6 : ℂ) : ℂ :=
  -x0 * b * (grad_M0 c0 c1 c2 c3 c4 c5 c6 d0 d1 d2 b phase x0 x1 x2 x3 x4 x5 x6) *
    (2 * x3 * c3 ^ 2 * d1 ^ 2 + 2 * c3 * x6 * c6 * d1 * d2)
/-- `grad_ADC_xz` of `_execute_gradient_3D` (lines 209-214). -/
noncomputable def grad_ADC_xz (c0 c1 c2 c3 c4 c5 c6 d0 d1 d2 b phase x0 x1 x2 x3 x4 x5 x6 : ℂ) : ℂ :=
  -x0 * b * (grad_M0 c0 c1 c2 c3 c4 c5 c6 d0 d1 d2 b phase x0 x1 x2 x3 x4 x5 x6) *
    (2 * x1 * c1 * c4 * d0 * d2 + 2 * x2 * c2 * c4 * d1 * d2 +
      2 * x4 * c4 ^ 2 * d2 ^ 2)
/-- `grad_ADC_z` of `_execute_gradient_3D` (lines 216-217). -/
noncomputable def grad_ADC_z (c0 c1 c2 c3 c4 c5 c6 d0 d1 d2 b phase x0 x1 x2 x3 x4 x5 x6 : ℂ) : ℂ :=
  -2 * x5 * c5 ^ 2 * x0 * b * d2 ^ 2 * (grad_M0 c0 c1 c2 c3 c4 c5 c6 d0 d1 d2 b phase x0 x1 x2 x3 x4 x5 x6)
/-- `grad_ADC_yz` of `_execute_gradient_3D` (lines 219-222). -/
noncomputable def grad_ADC_yz (c0 c1 c2 c3 c4 c5 c6 d0 d1 d2 b phase x0 x1 x2 x3 x4 x5 x6 : ℂ) : ℂ :=
  -x0 * b * (grad_M0 c0 c1 c2 c3 c4 c5 c6 d0 d1 d2 b phase x0 x1 x2 x3 x4 x5 x6) *
    (2 * x3 * c3 * c6 * d1 * d2 + 2 * x6 * c6 ^ 2 * d2 ^ 2)
end DiffdirLL

namespace Diffdir

/-- Per-voxel, per-scan ADC linear form of `_execute_forward_3D` and
`_execute_gradient_3D` (`mbpq/_models/Diffdir.py`, lines 105-107 and
121-123). -/
noncomputable def ADC (c1 c2 c3 c4 c5 c6 d0 d1 d2 x1 x2 x3 x4 x5 x6 : ℂ) : ℂ :=
  x1 * c1 * d0 ^ 2 +
    x3 * c3 * d1 ^ 2 +
    x5 * c5 * d2 ^ 2 +
    2 * x2 * c2 * d0 * d1 +
    2 * x4 * c4 * d0 * d2 +
    2 * x6 * c6 * d1 * d2

/-- Per-voxel, per-scan element of `_execute_forward_3D` (lines
110-116). -/
noncomputable def S (c0 c1 c2 c3 c4 c5 c6 d0 d1 d2 b phase x0 x1 x2 x3 x4 x5 x6 : ℂ) : ℂ :=
  x0 * c0 * Complex.exp (-ADC c1 c2 c3 c4 c5 c6 d0 d1 d2 x1 x2 x3 x4 x5 x6 * b) * phase

/-- `grad_M0` of `_execute_gradient_3D` (lines 128-133), with the phase
multiplied in. -/
noncomputable def grad_M0 (c0 c1 c2 c3 c4 c5 c6 d0 d1 d2 b phase x0 x1 x2 x3 x4 x5 x6 : ℂ) : ℂ :=
  c0 * Complex.exp (-ADC c1 c2 c3 c4 c5 c6 d0 d1 d2 x1 x2 x3 x4 x5 x6 * b) * phase
/-- `grad_ADC_x` of `_execute_gradient_3D` (lines 134-135). -/
noncomputable def grad_ADC_x (c0 c1 c2 c3 c4 c5 c6 d0 d1 d2 b phase x0 x1 x2 x3 x4 x5 x6 : ℂ) : ℂ :=
  x0 * (grad_M0 c0 c1 c2 c3 c4 c5 c6 d0 d1 d2 b phase x0 x1 x2 x3 x4 x5 x6) * (-c1 * d0 ^ 2 * b)
/-- `grad_ADC_xy` of `_execute_gradient_3D` (lines 136-137). -/
noncomputable def grad_ADC_xy (c0 c1 c2 c3 c4 c5 c6 d0 d1 d2 b phase x0 x1 x2 x3 x4 x5 x6 : ℂ) : ℂ :=
  x0 * (grad_M0 c0 c1 c2 c3 c4 c5 c6 d0 d1 d2 b phase x0 x1 x2 x3 x4 x5 x6) * (-2 * c2 * d0 * d1 * b)
/-- `grad_ADC_y` of `_execute_gradient_3D` (lines 139-140). -/
noncomputable def grad_ADC_y (c0 c1 c2 c3 c4 c5 c6 d0 d1 d2 b phase x0 x1 x2 x3 x4 x5 x6 : ℂ) : ℂ :=
  x0 * (grad_M0 c0 c1 c2 c3 c4 c5 c6 d0 d1 d2 b phase x0 x1 x2 x3 x4 x5 x6) * (-c3 * d1 ^ 2 * b)
/-- `grad_ADC_xz` of `_execute_gradient_3D` (lines 141-142). -/
noncomputable def grad_ADC_xz (c0 c1 c2 c3 c4 c5 c6 d0 d1 d2 b phase x0 x1 x2 x3 x4 x5 x6 : ℂ) : ℂ :=
  x0 * (grad_M0 c0 c1 c2 c3 c4 c5 c6 d0 d1 d2 b phase x0 x1 x2 x3 x4 x5 x6) * (-2 * c4 * d0 * d2 * b)
/-- `grad_ADC_z` of `_execute_gradient_3D` (lines 144-145). -/
noncomputable def grad_ADC_z (c0 c1 c2 c3 c4 c5 c6 d0 d1 d2 b phase x0 x1 x2 x3 x4 x5 x6 : ℂ) : ℂ :=
  x0 * (grad_M0 c0 c1 c2 c3 c4 c5 c6 d0 d1 d2 b phase x0 x1 x2 x3 x4 x5 x6) * (-c5 * d2 ^ 2 * b)
/-- `grad_ADC_yz` of `_execute_gradient_3D` (lines 146-147). -/
noncomputable def grad_ADC_yz (c0 c1 c2 c3 c4 c5 c6 d0 d1 d2 b phase x0 x1 x2 x3 x4 x5 x6 : ℂ) : ℂ :=
  x0 * (grad_M0 c0 c1 c2 c3 c4 c5 c6 d0 d1 d2 b phase x0 x1 x2 x3 x4 x5 x6) * (-2 * c6 * d1 * d2 * b)
end Diffdir

theorem hasDerivAt_quadC (a b c t : ℂ) :
    HasDerivAt (fun s : ℂ => a * s ^ 2 + b * s + c) (2 * a * t + b) t := by
  have h2 := ((hasDerivAt_pow 2 t).const_mul a).add
    ((hasDerivAt_id t).const_mul b)
  have h3 := h2.add_const c
  convert h3 using 1
  push_cast
  ring

theorem hasDerivAt_linC (b c t : ℂ) :
    HasDerivAt (fun s : ℂ => b * s + c) b t := by
  have h := ((hasDerivAt_id t).const_mul b).add_const c
  convert h using 1
  ring

theorem hasDerivAt_expFactor {p : ℂ → ℂ} {t d : ℂ} (A B b : ℂ)
    (hp : HasDerivAt p d t) :
    HasDerivAt (fun s => A * Complex.exp (-p s * b) * B)
      (A * Complex.exp (-p t * b) * B * (-(d * b))) t := by
  have h1 : HasDerivAt (fun s => -p s * b) (-(d * b)) t := by
    have h0 := (hp.neg).mul_const b
    convert h0 using 1
    ring
  have h2 := h1.cexp
  have h3 := (h2.const_mul A).mul_const B
  convert h3 using 1
  ring

theorem hasDerivAt_linSlot (c E B t : ℂ) :
    HasDerivAt (fun s : ℂ => s * c * E * B) (c * E * B) t := by
  have h := (((hasDerivAt_id t).mul_const c).mul_const E).mul_const B
  convert h using 1
  ring

/-- C3: for both diffusion signal models the per-voxel, per-scan
Jacobian entry of unknown `u` is the exact partial derivative of the
forward signal with respect to `x[u]`: `HasDerivAt` of the forward
element, in the complex variable occupying slot `u`, with value the
corresponding `_execute_gradient_3D` entry. Differentiability gives the
claimed first-order expansion
`forward(x+dx) = forward(x) + sum_u grad_x[u]*dx[u] + o(|dx|)` for all
perturbations, and the signal is finite (entire) at every input. The
first seven conjuncts are the Cholesky-parametrized model
(`pyqmri/models/DiffdirLL.py`), the last seven the linear model
(`mbpq/_models/Diffdir.py`). -/
theorem C3_jacobian_is_exact_derivative
    (c0 c1 c2 c3 c4 c5 c6 d0 d1 d2 b phase x0 x1 x2 x3 x4 x5 x6 : ℂ) :
    HasDerivAt (fun t : ℂ => DiffdirLL.S c0 c1 c2 c3 c4 c5 c6 d0 d1 d2 b phase t x1 x2 x3 x4 x5 x6)
      (DiffdirLL.grad_M0 c0 c1 c2 c3 c4 c5 c6 d0 d1 d2 b phase x0 x1 x2 x3 x4 x5 x6) x0 ∧
    HasDerivAt (fun t : ℂ => DiffdirLL.S c0 c1 c2 c3 c4 c5 c6 d0 d1 d2 b phase x0 t x2 x3 x4 x5 x6)
      (DiffdirLL.grad_ADC_x c0 c1 c2 c3 c4 c5 c6 d0 d1 d2 b phase x0 x1 x2 x3 x4 x5 x6) x1 ∧
    HasDerivAt (fun t : ℂ => DiffdirLL.S c0 c1 c2 c3 c4 c5 c6 d0 d1 d2 b phase x0 x1 t x3 x4 x5 x6)
      (DiffdirLL.grad_ADC_xy c0 c1 c2 c3 c4 c5 c6 d0 d1 d2 b phase x0 x1 x2 x3 x4 x5 x6) x2 ∧
    HasDerivAt (fun t : ℂ => DiffdirLL.S c0 c1 c2 c3 c4 c5 c6 d0 d1 d2 b phase x0 x1 x2 t x4 x5 x6)
      (DiffdirLL.grad_ADC_y c0 c1 c2 c3 c4 c5 c6 d0 d1 d2 b phase x0 x1 x2 x3 x4 x5 x6) x3 ∧
    HasDerivAt (fun t : ℂ => DiffdirLL.S c0 c1 c2 c3 c4 c5 c6 d0 d1 d2 b phase x0 x1 x2 x3 t x5 x6)
      (DiffdirLL.grad_ADC_xz c0 c1 c2 c3 c4 c5 c6 d0 d1 d2 b phase x0 x1 x2 x3 x4 x5 x6) x4 ∧
    HasDerivAt (fun t : ℂ => DiffdirLL.S c0 c1 c2 c3 c4 c5 c6 d0 d1 d2 b phase x0 x1 x2 x3 x4 t x6)
      (DiffdirLL.grad_ADC_z c0 c1 c2 c3 c4 c5 c6 d0 d1 d2 b phase x0 x1 x2 x3 x4 x5 x6) x5 ∧
    HasDerivAt (fun t : ℂ => DiffdirLL.S c0 c1 c2 c3 c4 c5 c6 d0 d1 d2 b phase x0 x1 x2 x3 x4 x5 t)
      (DiffdirLL.grad_ADC_yz c0 c1 c2 c3 c4 c5 c6 d0 d1 d2 b phase x0 x1 x2 x3 x4 x5 x6) x6 ∧
    HasDerivAt (fun t : ℂ => Diffdir.S c0 c1 c2 c3 c4 c5 c6 d0 d1 d2 b phase t x1 x2 x3 x4 x5 x6)
      (Diffdir.grad_M0 c0 c1 c2 c3 c4 c5 c6 d0 d1 d2 b phase x0 x1 x2 x3 x4 x5 x6) x0 ∧
    HasDerivAt (fun t : ℂ => Diffdir.S c0 c1 c2 c3 c4 c5 c6 d0 d1 d2 b phase x0 t x2 x3 x4 x5 x6)
      (Diffdir.grad_ADC_x c0 c1 c2 c3 c4 c5 c6 d0 d1 d2 b phase x0 x1 x2 x3 x4 x5 x6) x1 ∧
    HasDerivAt (fun t : ℂ => Diffdir.S c0 c1 c2 c3 c4 c5 c6 d0 d1 d2 b phase x0 x1 t x3 x4 x5 x6)
      (Diffdir.grad_ADC_xy c0 c1 c2 c3 c4 c5 c6 d0 d1 d2 b phase x0 x1 x2 x3 x4 x5 x6) x2 ∧
    HasDerivAt (fun t : ℂ => Diffdir.S c0 c1 c2 c3 c4 c5 c6 d0 d1 d2 b phase x0 x1 x2 t x4 x5 x6)
      (Diffdir.grad_ADC_y c0 c1 c2 c3 c4 c5 c6 d0 d1 d2 b phase x0 x1 x2 x3 x4 x5 x6) x3 ∧
    HasDerivAt (fun t : ℂ => Diffdir.S c0 c1 c2 c3 c4 c5 c6 d0 d1 d2 b phase x0 x1 x2 x3 t x5 x6)
      (Diffdir.grad_ADC_xz c0 c1 c2 c3 c4 c5 c6 d0 d1 d2 b phase x0 x1 x2 x3 x4 x5 x6) x4 ∧
    HasDerivAt (fun t : ℂ => Diffdir.S c0 c1 c2 c3 c4 c5 c6 d0 d1 d2 b phase x0 x1 x2 x3 x4 t x6)
      (Diffdir.grad_ADC_z c0 c1 c2 c3 c4 c5 c6 d0 d1 d2 b phase x0 x1 x2 x3 x4 x5 x6) x5 ∧
    HasDerivAt (fun t : ℂ => Diffdir.S c0 c1 c2 c3 c4 c5 c6 d0 d1 d2 b phase x0 x1 x2 x3 x4 x5 t)
      (Diffdir.grad_ADC_yz c0 c1 c2 c3 c4 c5 c6 d0 d1 d2 b phase x0 x1 x2 x3 x4 x5 x6) x6 := by
  refine ⟨?_, ?_, ?_, ?_, ?_, ?_, ?_, ?_, ?_, ?_, ?_, ?_, ?_, ?_⟩
  · exact hasDerivAt_linSlot c0
      (Complex.exp (-DiffdirLL.ADC c1 c2 c3 c4 c5 c6 d0 d1 d2 x1 x2 x3 x4 x5 x6 * b)) phase x0
  · have h1 : HasDerivAt
        (fun t : ℂ => DiffdirLL.ADC c1 c2 c3 c4 c5 c6 d0 d1 d2 t x2 x3 x4 x5 x6)
        (2 * (c1 ^ 2 * d0 ^ 2) * x1 + (2 * (x2 * c2 * c1) * d0 * d1 + 2 * (x4 * c4 * c1) * d0 * d2)) x1 := by
      have hf : (fun t : ℂ => DiffdirLL.ADC c1 c2 c3 c4 c5 c6 d0 d1 d2 t x2 x3 x4 x5 x6)
          = fun t : ℂ => c1 ^ 2 * d0 ^ 2 * t ^ 2 + (2 * (x2 * c2 * c1) * d0 * d1 + 2 * (x4 * c4 * c1) * d0 * d2) * t +
              ((x2 ^ 2 * c2 ^ 2 + x3 ^ 2 * c3 ^ 2) * d1 ^ 2 + (x4 ^ 2 * c4 ^ 2 + x5 ^ 2 * c5 ^ 2 + x6 ^ 2 * c6 ^ 2) * d2 ^ 2 + 2 * (x2 * c2 * x4 * c4 + x6 * c6 * x3 * c3) * d1 * d2) := by
        funext t
        simp only [DiffdirLL.ADC]
        ring
      rw [hf]
      exact hasDerivAt_quadC _ _ _ x1
    have h2 := hasDerivAt_expFactor (x0 * c0) phase b h1
    have hval : DiffdirLL.grad_ADC_x c0 c1 c2 c3 c4 c5 c6 d0 d1 d2 b phase x0 x1 x2 x3 x4 x5 x6
        = x0 * c0 *
            Complex.exp (-DiffdirLL.ADC c1 c2 c3 c4 c5 c6 d0 d1 d2 x1 x2 x3 x4 x5 x6 * b) *
            phase * (-((2 * (c1 ^ 2 * d0 ^ 2) * x1 + (2 * (x2 * c2 * c1) * d0 * d1 + 2 * (x4 * c4 * c1) * d0 * d2)) * b)) := by
      simp only [DiffdirLL.grad_ADC_x, DiffdirLL.grad_M0]
      ring
    rw [hval]
    exact h2
  · have h1 : HasDerivAt
        (fun t : ℂ => DiffdirLL.ADC c1 c2 c3 c4 c5 c6 d0 d1 d2 x1 t x3 x4 x5 x6)
        (2 * (c2 ^ 2 * d1 ^ 2) * x2 + (2 * (c2 * x1 * c1) * d0 * d1 + 2 * (c2 * x4 * c4) * d1 * d2)) x2 := by
      have hf : (fun t : ℂ => DiffdirLL.ADC c1 c2 c3 c4 c5 c6 d0 d1 d2 x1 t x3 x4 x5 x6)
          = fun t : ℂ => c2 ^ 2 * d1 ^ 2 * t ^ 2 + (2 * (c2 * x1 * c1) * d0 * d1 + 2 * (c2 * x4 * c4) * d1 * d2) * t +
              (x1 ^ 2 * c1 ^ 2 * d0 ^ 2 + x3 ^ 2 * c3 ^ 2 * d1 ^ 2 + (x4 ^ 2 * c4 ^ 2 + x5 ^ 2 * c5 ^ 2 + x6 ^ 2 * c6 ^ 2) * d2 ^ 2 + 2 * (x4 * c4 * x1 * c1) * d0 * d2 + 2 * (x6 * c6 * x3 * c3) * d1 * d2) := by
        funext t
        simp only [DiffdirLL.ADC]
        ring
      rw [hf]
      exact hasDerivAt_quadC _ _ _ x2
    have h2 := hasDerivAt_expFactor (x0 * c0) phase b h1
    have hval : DiffdirLL.grad_ADC_xy c0 c1 c2 c3 c4 c5 c6 d0 d1 d2 b phase x0 x1 x2 x3 x4 x5 x6
        = x0 * c0 *
            Complex.exp (-DiffdirLL.ADC c1 c2 c3 c4 c5 c6 d0 d1 d2 x1 x2 x3 x4 x5 x6 * b) *
            phase * (-((2 * (c2 ^ 2 * d1 ^ 2) * x2 + (2 * (c2 * x1 * c1) * d0 * d1 + 2 * (c2 * x4 * c4) * d1 * d2)) * b)) := by
      simp only [DiffdirLL.grad_ADC_xy, DiffdirLL.grad_M0]
      ring
    rw [hval]
    exact h2
  · have h1 : HasDerivAt
        (fun t : ℂ => DiffdirLL.ADC c1 c2 c3 c4 c5 c6 d0 d1 d2 x1 x2 t x4 x5 x6)
        (2 * (c3 ^ 2 * d1 ^ 2) * x3 + (2 * (x6 * c6 * c3) * d1 * d2)) x3 := by
      have hf : (fun t : ℂ => DiffdirLL.ADC c1 c2 c3 c4 c5 c6 d0 d1 d2 x1 x2 t x4 x5 x6)
          = fun t : ℂ => c3 ^ 2 * d1 ^ 2 * t ^ 2 + (2 * (x6 * c6 * c3) * d1 * d2) * t +
              (x1 ^ 2 * c1 ^ 2 * d0 ^ 2 + x2 ^ 2 * c2 ^ 2 * d1 ^ 2 + (x4 ^ 2 * c4 ^ 2 + x5 ^ 2 * c5 ^ 2 + x6 ^ 2 * c6 ^ 2) * d2 ^ 2 + 2 * (x2 * c2 * x1 * c1) * d0 * d1 + 2 * (x4 * c4 * x1 * c1) * d0 * d2 + 2 * (x2 * c2 * x4 * c4) * d1 * d2) := by
        funext t
        simp only [DiffdirLL.ADC]
        ring
      rw [hf]
      exact hasDerivAt_quadC _ _ _ x3
    have h2 := hasDerivAt_expFactor (x0 * c0) phase b h1
    have hval : DiffdirLL.grad_ADC_y c0 c1 c2 c3 c4 c5 c6 d0 d1 d2 b phase x0 x1 x2 x3 x4 x5 x6
        = x0 * c0 *
            Complex.exp (-DiffdirLL.ADC c1 c2 c3 c4 c5 c6 d0 d1 d2 x1 x2 x3 x4 x5 x6 * b) *
            phase * (-((2 * (c3 ^ 2 * d1 ^ 2) * x3 + (2 * (x6 * c6 * c3) * d1 * d2)) * b)) := by
      simp only [DiffdirLL.grad_ADC_y, DiffdirLL.grad_M0]
      ring
    rw [hval]
    exact h2
  · have h1 : HasDerivAt
        (fun t : ℂ => DiffdirLL.ADC c1 c2 c3 c4 c5 c6 d0 d1 d2 x1 x2 x3 t x5 x6)
        (2 * (c4 ^ 2 * d2 ^ 2) * x4 + (2 * (c4 * x1 * c1) * d0 * d2 + 2 * (x2 * c2 * c4) * d1 * d2)) x4 := by
      have hf : (fun t : ℂ => DiffdirLL.ADC c1 c2 c3 c4 c5 c6 d0 d1 d2 x1 x2 x3 t x5 x6)
          = fun t : ℂ => c4 ^ 2 * d2 ^ 2 * t ^ 2 + (2 * (c4 * x1 * c1) * d0 * d2 + 2 * (x2 * c2 * c4) * d1 * d2) * t +
              (x1 ^ 2 * c1 ^ 2 * d0 ^ 2 + (x2 ^ 2 * c2 ^ 2 + x3 ^ 2 * c3 ^ 2) * d1 ^ 2 + (x5 ^ 2 * c5 ^ 2 + x6 ^ 2 * c6 ^ 2) * d2 ^ 2 + 2 * (x2 * c2 * x1 * c1) * d0 * d1 + 2 * (x6 * c6 * x3 * c3) * d1 * d2) := by
        funext t
        simp only [DiffdirLL.ADC]
        ring
      rw [hf]
      exact hasDerivAt_quadC _ _ _ x4
    have h2 := hasDerivAt_expFactor (x0 * c0) phase b h1
    have hval : DiffdirLL.grad_ADC_xz c0 c1 c2 c3 c4 c5 c6 d0 d1 d2 b phase x0 x1 x2 x3 x4 x5 x6
        = x0 * c0 *
            Complex.exp (-DiffdirLL.ADC c1 c2 c3 c4 c5 c6 d0 d1 d2 x1 x2 x3 x4 x5 x6 * b) *
            phase * (-((2 * (c4 ^ 2 * d2 ^ 2) * x4 + (2 * (c4 * x1 * c1) * d0 * d2 + 2 * (x2 * c2 * c4) * d1 * d2)) * b)) := by
      simp only [DiffdirLL.grad_ADC_xz, DiffdirLL.grad_M0]
      ring
    rw [hval]
    exact h2
  · have h1 : HasDerivAt
        (fun t : ℂ => DiffdirLL.ADC c1 c2 c3 c4 c5 c6 d0 d1 d2 x1 x2 x3 x4 t x6)
        (2 * (c5 ^ 2 * d2 ^ 2) * x5 + (0)) x5 := by
      have hf : (fun t : ℂ => DiffdirLL.ADC c1 c2 c3 c4 c5 c6 d0 d1 d2 x1 x2 x3 x4 t x6)
          = fun t : ℂ => c5 ^ 2 * d2 ^ 2 * t ^ 2 + (0) * t +
              (x1 ^ 2 * c1 ^ 2 * d0 ^ 2 + (x2 ^ 2 * c2 ^ 2 + x3 ^ 2 * c3 ^ 2) * d1 ^ 2 + (x4 ^ 2 * c4 ^ 2 + x6 ^ 2 * c6 ^ 2) * d2 ^ 2 + 2 * (x2 * c2 * x1 * c1) * d0 * d1 + 2 * (x4 * c4 * x1 * c1) * d0 * d2 + 2 * (x2 * c2 * x4 * c4 + x6 * c6 * x3 * c3) * d1 * d2) := by
        funext t
        simp only [DiffdirLL.ADC]
        ring
      rw [hf]
      exact hasDerivAt_quadC _ _ _ x5
    have h2 := hasDerivAt_expFactor (x0 * c0) phase b h1
    have hval : DiffdirLL.grad_ADC_z c0 c1 c2 c3 c4 c5 c6 d0 d1 d2 b phase x0 x1 x2 x3 x4 x5 x6
        = x0 * c0 *
            Complex.exp (-DiffdirLL.ADC c1 c2 c3 c4 c5 c6 d0 d1 d2 x1 x2 x3 x4 x5 x6 * b) *
            phase * (-((2 * (c5 ^ 2 * d2 ^ 2) * x5 + (0)) * b)) := by
      simp only [DiffdirLL.grad_ADC_z, DiffdirLL.grad_M0]
      ring
    rw [hval]
    exact h2
  · have h1 : HasDerivAt
        (fun t : ℂ => DiffdirLL.ADC c1 c2 c3 c4 c5 c6 d0 d1 d2 x1 x2 x3 x4 x5 t)
        (2 * (c6 ^ 2 * d2 ^ 2) * x6 + (2 * (c6 * x3 * c3) * d1 * d2)) x6 := by
      have hf : (fun t : ℂ => DiffdirLL.ADC c1 c2 c3 c4 c5 c6 d0 d1 d2 x1 x2 x3 x4 x5 t)
          = fun t : ℂ => c6 ^ 2 * d2 ^ 2 * t ^ 2 + (2 * (c6 * x3 * c3) * d1 * d2) * t +
              (x1 ^ 2 * c1 ^ 2 * d0 ^ 2 + (x2 ^ 2 * c2 ^ 2 + x3 ^ 2 * c3 ^ 2) * d1 ^ 2 + (x4 ^ 2 * c4 ^ 2 + x5 ^ 2 * c5 ^ 2) * d2 ^ 2 + 2 * (x2 * c2 * x1 * c1) * d0 * d1 + 2 * (x4 * c4 * x1 * c1) * d0 * d2 + 2 * (x2 * c2 * x4 * c4) * d1 * d2) := by
        funext t
        simp only [DiffdirLL.ADC]
        ring
      rw [hf]
      exact hasDerivAt_quadC _ _ _ x6
    have h2 := hasDerivAt_expFactor (x0 * c0) phase b h1
    have hval : DiffdirLL.grad_ADC_yz c0 c1 c2 c3 c4 c5 c6 d0 d1 d2 b phase x0 x1 x2 x3 x4 x5 x6
        = x0 * c0 *
            Complex.exp (-DiffdirLL.ADC c1 c2 c3 c4 c5 c6 d0 d1 d2 x1 x2 x3 x4 x5 x6 * b) *
            phase * (-((2 * (c6 ^ 2 * d2 ^ 2) * x6 + (2 * (c6 * x3 * c3) * d1 * d2)) * b)) := by
      simp only [DiffdirLL.grad_ADC_yz, DiffdirLL.grad_M0]
      ring
    rw [hval]
    exact h2
  · exact hasDerivAt_linSlot c0
      (Complex.exp (-Diffdir.ADC c1 c2 c3 c4 c5 c6 d0 d1 d2 x1 x2 x3 x4 x5 x6 * b)) phase x0
  · have h1 : HasDerivAt
        (fun t : ℂ => Diffdir.ADC c1 c2 c3 c4 c5 c6 d0 d1 d2 t x2 x3 x4 x5 x6)
        (c1 * d0 ^ 2) x1 := by
      have hf : (fun t : ℂ => Diffdir.ADC c1 c2 c3 c4 c5 c6 d0 d1 d2 t x2 x3 x4 x5 x6)
          = fun t : ℂ => (c1 * d0 ^ 2) * t + (x3 * c3 * d1 ^ 2 + x5 * c5 * d2 ^ 2 + 2 * x2 * c2 * d0 * d1 + 2 * x4 * c4 * d0 * d2 + 2 * x6 * c6 * d1 * d2) := by
        funext t
        simp only [Diffdir.ADC]
        ring
      rw [hf]
      exact hasDerivAt_linC _ _ x1
    have h2 := hasDerivAt_expFactor (x0 * c0) phase b h1
    have hval : Diffdir.grad_ADC_x c0 c1 c2 c3 c4 c5 c6 d0 d1 d2 b phase x0 x1 x2 x3 x4 x5 x6
        = x0 * c0 *
            Complex.exp (-Diffdir.ADC c1 c2 c3 c4 c5 c6 d0 d1 d2 x1 x2 x3 x4 x5 x6 * b) *
            phase * (-((c1 * d0 ^ 2) * b)) := by
      simp only [Diffdir.grad_ADC_x, Diffdir.grad_M0]
      ring
    rw [hval]
    exact h2
  · have h1 : HasDerivAt
        (fun t : ℂ => Diffdir.ADC c1 c2 c3 c4 c5 c6 d0 d1 d2 x1 t x3 x4 x5 x6)
        (2 * c2 * d0 * d1) x2 := by
      have hf : (fun t : ℂ => Diffdir.ADC c1 c2 c3 c4 c5 c6 d0 d1 d2 x1 t x3 x4 x5 x6)
          = fun t : ℂ => (2 * c2 * d0 * d1) * t + (x1 * c1 * d0 ^ 2 + x3 * c3 * d1 ^ 2 + x5 * c5 * d2 ^ 2 + 2 * x4 * c4 * d0 * d2 + 2 * x6 * c6 * d1 * d2) := by
        funext t
        simp only [Diffdir.ADC]
        ring
      rw [hf]
      exact hasDerivAt_linC _ _ x2
    have h2 := hasDerivAt_expFactor (x0 * c0) phase b h1
    have hval : Diffdir.grad_ADC_xy c0 c1 c2 c3 c4 c5 c6 d0 d1 d2 b phase x0 x1 x2 x3 x4 x5 x6
        = x0 * c0 *
            Complex.exp (-Diffdir.ADC c1 c2 c3 c4 c5 c6 d0 d1 d2 x1 x2 x3 x4 x5 x6 * b) *
            phase * (-((2 * c2 * d0 * d1) * b)) := by
      simp only [Diffdir.grad_ADC_xy, Diffdir.grad_M0]
      ring
    rw [hval]
    exact h2
  · have h1 : HasDerivAt
        (fun t : ℂ => Diffdir.ADC c1 c2 c3 c4 c5 c6 d0 d1 d2 x1 x2 t x4 x5 x6)
        (c3 * d1 ^ 2) x3 := by
      have hf : (fun t : ℂ => Diffdir.ADC c1 c2 c3 c4 c5 c6 d0 d1 d2 x1 x2 t x4 x5 x6)
          = fun t : ℂ => (c3 * d1 ^ 2) * t + (x1 * c1 * d0 ^ 2 + x5 * c5 * d2 ^ 2 + 2 * x2 * c2 * d0 * d1 + 2 * x4 * c4 * d0 * d2 + 2 * x6 * c6 * d1 * d2) := by
        funext t
        simp only [Diffdir.ADC]
        ring
      rw [hf]
      exact hasDerivAt_linC _ _ x3
    have h2 := hasDerivAt_expFactor (x0 * c0) phase b h1
    have hval : Diffdir.grad_ADC_y c0 c1 c2 c3 c4 c5 c6 d0 d1 d2 b phase x0 x1 x2 x3 x4 x5 x6
        = x0 * c0 *
            Complex.exp (-Diffdir.ADC c1 c2 c3 c4 c5 c6 d0 d1 d2 x1 x2 x3 x4 x5 x6 * b) *
            phase * (-((c3 * d1 ^ 2) * b)) := by
      simp only [Diffdir.grad_ADC_y, Diffdir.grad_M0]
      ring
    rw [hval]
    exact h2
  · have h1 : HasDerivAt
        (fun t : ℂ => Diffdir.ADC c1 c2 c3 c4 c5 c6 d0 d1 d2 x1 x2 x3 t x5 x6)
        (2 * c4 * d0 * d2) x4 := by
      have hf : (fun t : ℂ => Diffdir.ADC c1 c2 c3 c4 c5 c6 d0 d1 d2 x1 x2 x3 t x5 x6)
          = fun t : ℂ => (2 * c4 * d0 * d2) * t + (x1 * c1 * d0 ^ 2 + x3 * c3 * d1 ^ 2 + x5 * c5 * d2 ^ 2 + 2 * x2 * c2 * d0 * d1 + 2 * x6 * c6 * d1 * d2) := by
        funext t
        simp only [Diffdir.ADC]
        ring
      rw [hf]
      exact hasDerivAt_linC _ _ x4
    have h2 := hasDerivAt_expFactor (x0 * c0) phase b h1
    have hval : Diffdir.grad_ADC_xz c0 c1 c2 c3 c4 c5 c6 d0 d1 d2 b phase x0 x1 x2 x3 x4 x5 x6
        = x0 * c0 *
            Complex.exp (-Diffdir.ADC c1 c2 c3 c4 c5 c6 d0 d1 d2 x1 x2 x3 x4 x5 x6 * b) *
            phase * (-((2 * c4 * d0 * d2) * b)) := by
      simp only [Diffdir.grad_ADC_xz, Diffdir.grad_M0]
      ring
    rw [hval]
    exact h2
  · have h1 : HasDerivAt
        (fun t : ℂ => Diffdir.ADC c1 c2 c3 c4 c5 c6 d0 d1 d2 x1 x2 x3 x4 t x6)
        (c5 * d2 ^ 2) x5 := by
      have hf : (fun t : ℂ => Diffdir.ADC c1 c2 c3 c4 c5 c6 d0 d1 d2 x1 x2 x3 x4 t x6)
          = fun t : ℂ => (c5 * d2 ^ 2) * t + (x1 * c1 * d0 ^ 2 + x3 * c3 * d1 ^ 2 + 2 * x2 * c2 * d0 * d1 + 2 * x4 * c4 * d0 * d2 + 2 * x6 * c6 * d1 * d2) := by
        funext t
        simp only [Diffdir.ADC]
        ring
      rw [hf]
      exact hasDerivAt_linC _ _ x5
    have h2 := hasDerivAt_expFactor (x0 * c0) phase b h1
    have hval : Diffdir.grad_ADC_z c0 c1 c2 c3 c4 c5 c6 d0 d1 d2 b phase x0 x1 x2 x3 x4 x5 x6
        = x0 * c0 *
            Complex.exp (-Diffdir.ADC c1 c2 c3 c4 c5 c6 d0 d1 d2 x1 x2 x3 x4 x5 x6 * b) *
            phase * (-((c5 * d2 ^ 2) * b)) := by
      simp only [Diffdir.grad_ADC_z, Diffdir.grad_M0]
      ring
    rw [hval]
    exact h2
  · have h1 : HasDerivAt
        (fun t : ℂ => Diffdir.ADC c1 c2 c3 c4 c5 c6 d0 d1 d2 x1 x2 x3 x4 x5 t)
        (2 * c6 * d1 * d2) x6 := by
      have hf : (fun t : ℂ => Diffdir.ADC c1 c2 c3 c4 c5 c6 d0 d1 d2 x1 x2 x3 x4 x5 t)
          = fun t : ℂ => (2 * c6 * d1 * d2) * t + (x1 * c1 * d0 ^ 2 + x3 * c3 * d1 ^ 2 + x5 * c5 * d2 ^ 2 + 2 * x2 * c2 * d0 * d1 + 2 * x4 * c4 * d0 * d2) := by
        funext t
        simp only [Diffdir.ADC]
        ring
      rw [hf]
      exact hasDerivAt_linC _ _ x6
    have h2 := hasDerivAt_expFactor (x0 * c0) phase b h1
    have hval : Diffdir.grad_ADC_yz c0 c1 c2 c3 c4 c5 c6 d0 d1 d2 b phase x0 x1 x2 x3 x4 x5 x6
        = x0 * c0 *
            Complex.exp (-Diffdir.ADC c1 c2 c3 c4 c5 c6 d0 d1 d2 x1 x2 x3 x4 x5 x6 * b) *
            phase * (-((2 * c6 * d1 * d2) * b)) := by
      simp only [Diffdir.grad_ADC_yz, Diffdir.grad_M0]
      ring
    rw [hval]
    exact h2
